import Mathlib

/-!
Shallow embedding of the `blogicum` blog application's view layer
(`blog/views.py` together with the routing in `blog/urls.py` and
`blogicum/urls.py`), and proofs about its visibility, ownership,
pagination and error-handling behaviour.

Records are rows of an in-memory relational state (`Database`); each
request handler of `blog/views.py` becomes a function from the database
and the request data to an HTTP-level `Response`, paired with the
resulting database for the mutating handlers.  `request.user` is an
`Option Nat` (the user's primary key), `none` standing for Django's
`AnonymousUser`.
-/

namespace Blogicum

/-- Modelled from the spec: `blog/models.py` is not among the provided
sources; per §3 of the spec a Category carries `title`, `slug`,
`description`, `is_published`, `created_at` and has many Posts.  Only
the fields the view layer reads are kept, plus the primary key. -/
structure Category where
  id : Nat
  slug : String
  title : String
  is_published : Bool
deriving Repr, DecidableEq

/-- Modelled from the spec: per §3 a Location has a `name` and is
optionally referenced by Posts. -/
structure Location where
  id : Nat
  name : String
deriving Repr, DecidableEq

/-- Modelled from the spec: the reused framework User type; the view
layer reads its primary key and `username` (`UserUpdateView.get_object`,
`profile`). -/
structure User where
  id : Nat
  username : String
  first_name : String
deriving Repr, DecidableEq

/-- Modelled from the spec: per §3 a Post carries `title`, `text`,
`pub_date`, `is_published`, and foreign keys `author` (User), `category`
(Category) and optional `location`.  `pub_date` is a timestamp, embedded
as an integer. -/
structure Post where
  id : Nat
  title : String
  text : String
  pub_date : Int
  is_published : Bool
  author : Nat
  category : Nat
  location : Option Nat
deriving Repr, DecidableEq

/-- Modelled from the spec: per §3 a Comment carries `text` and foreign
keys `author` (User) and `post` (Post). -/
structure Comment where
  id : Nat
  text : String
  author : Nat
  post : Nat
deriving Repr, DecidableEq

/-- The relational state the handlers in `blog/views.py` query and
mutate through the ORM. -/
structure Database where
  users : List User
  categories : List Category
  posts : List Post
  comments : List Comment
deriving Repr, DecidableEq

/-- Redirect targets used by the handlers (`reverse_lazy` /
`redirect` calls in `blog/views.py`, plus the login redirect of
`LoginRequiredMixin`). -/
inductive Route where
  | index
  | login
  | post_detail (pk : Nat)
  | profilePage (username : String)
deriving Repr, DecidableEq

/-- HTTP-level outcome of a request: a rendered listing page (rows are
posts annotated with their comment count, per `annotate(comment_count=
Count('comments'))`), a rendered detail page, 404, 403 (raised
`PermissionDenied`), or a redirect. -/
inductive Response where
  | page (rows : List (Post × Nat))
  | detail (p : Post)
  | notFound
  | forbidden
  | redirect (target : Route)
deriving Repr, DecidableEq

/-- `annotate(comment_count=Count('comments'))` for one post row. -/
def commentCount (db : Database) (p : Post) : Nat :=
  (db.comments.filter (fun c => c.post == p.id)).length

/-- The Category row a post's `category` foreign key joins to. -/
def categoryOf (db : Database) (p : Post) : Option Category :=
  db.categories.find? (fun c => c.id == p.category)

/-- The `category__is_published=True` join condition of the listing
filters in `PostListView.get_queryset` and
`CategoryListView.get_queryset`. -/
def categoryPublished (db : Database) (p : Post) : Bool :=
  match categoryOf db p with
  | some c => c.is_published
  | none => false

/-- The `category__slug=slug` join condition of
`CategoryListView.get_queryset`. -/
def categorySlugIs (db : Database) (p : Post) (slug : String) : Bool :=
  match categoryOf db p with
  | some c => c.slug == slug
  | none => false

/-- The visibility predicate of `PostListView.get_queryset`:
`is_published=True, category__is_published=True,
pub_date__lte=dt.datetime.now(dt.timezone.utc)`. -/
def postVisible (db : Database) (now : Int) (p : Post) : Bool :=
  p.is_published && categoryPublished db p && decide (p.pub_date ≤ now)

/-- Stable insertion keeping larger `pub_date` first: one step of the
`ordering = '-pub_date'` / `order_by('-pub_date')` sort. -/
def insertByDateDesc (p : Post) : List Post → List Post
  | [] => [p]
  | q :: qs =>
    if q.pub_date < p.pub_date then p :: q :: qs
    else q :: insertByDateDesc p qs

/-- `ordering = '-pub_date'` (home and category listings) and
`order_by('-pub_date')` (profile): sort by publish date descending. -/
def orderByDateDesc : List Post → List Post
  | [] => []
  | p :: ps => insertByDateDesc p (orderByDateDesc ps)

/-- `PostListView.get_queryset`: all posts ordered by `-pub_date`,
annotated, then filtered by the visibility predicate. -/
def postListQueryset (db : Database) (now : Int) : List Post :=
  (orderByDateDesc db.posts).filter (fun p => postVisible db now p)

/-- `CategoryListView.get_queryset`: the same conditions with the
additional `category__slug=self.kwargs['category_slug']`. -/
def categoryQueryset (db : Database) (now : Int) (slug : String) : List Post :=
  (orderByDateDesc db.posts).filter (fun p =>
    p.is_published && categoryPublished db p && decide (p.pub_date ≤ now)
      && categorySlugIs db p slug)

/-- Modelled from the spec: `blogicum/constants.py` is not among the
provided sources; the spec fixes only that listings are "paginated at a
fixed page size" (`constants.POSTS_PER_PAGE`).  The concrete value is
irrelevant to every property proved below. -/
def POSTS_PER_PAGE : Nat := 10

/-- One page of a paginated queryset: `Paginator(rows, perPage)` page
number `page` (1-based), as sliced by Django's paginator. -/
def paginatePage (rows : List α) (perPage : Nat) (page : Nat) : List α :=
  (rows.drop ((page - 1) * perPage)).take perPage

/-- The rendered rows of a listing: each post of the page paired with
its annotated comment count. -/
def annotateRows (db : Database) (rows : List Post) : List (Post × Nat) :=
  rows.map (fun p => (p, commentCount db p))

/-- The rows rendered by `PostListView` (route `blog:index`) for one
page. -/
def postListRows (db : Database) (now : Int) (page : Nat) : List (Post × Nat) :=
  annotateRows db (paginatePage (postListQueryset db now) POSTS_PER_PAGE page)

/-- `PostListView` (home listing). -/
def postListView (db : Database) (now : Int) (page : Nat) : Response :=
  .page (postListRows db now page)

/-- The rows rendered by `CategoryListView` for one page. -/
def categoryListRows (db : Database) (now : Int) (slug : String) (page : Nat) :
    List (Post × Nat) :=
  annotateRows db (paginatePage (categoryQueryset db now slug) POSTS_PER_PAGE page)

/-- `CategoryListView`: `get_context_data` does
`get_object_or_404(Category, slug=..., is_published=True)`, so the
response is 404 unless a published category with the slug exists;
otherwise the filtered queryset is rendered. -/
def categoryListView (db : Database) (now : Int) (slug : String) (page : Nat) :
    Response :=
  match db.categories.find? (fun c => c.slug == slug && c.is_published) with
  | none => .notFound
  | some _ => .page (categoryListRows db now slug page)

/-- `PostDetailView`: a plain `DetailView` on `Post` with no queryset
override — it fetches the post by primary key from the full table and
renders it (`get_context_data` only adds the comment form and the
comment list). -/
def postDetailView (db : Database) (pk : Nat) : Response :=
  match db.posts.find? (fun p => p.id == pk) with
  | none => .notFound
  | some p => .detail p

/-- Modelled from the spec: `blog/forms.py` is not among the provided
sources; `PostForm` edits the Post content fields of §3 (`author` and
the primary key are never form fields: `form_valid` forcibly sets
`form.instance.author = self.request.user`). -/
structure PostFormData where
  title : String
  text : String
  pub_date : Int
  is_published : Bool
  category : Nat
  location : Option Nat
deriving Repr, DecidableEq

/-- Applying a valid `PostForm` to a post: content fields replaced,
`author` set to the requesting user (`form_valid`), primary key kept. -/
def applyPostForm (p : Post) (d : PostFormData) (uid : Nat) : Post :=
  { p with title := d.title, text := d.text, pub_date := d.pub_date,
           is_published := d.is_published, category := d.category,
           location := d.location, author := uid }

/-- Replace the post with primary key `pk` by `f` of itself. -/
def updatePost (posts : List Post) (pk : Nat) (f : Post → Post) : List Post :=
  posts.map (fun p => if p.id == pk then f p else p)

/-- `PostUpdateView` (submit path): `dispatch` does
`get_object_or_404(Post, pk=...)`; if `instance.author != request.user`
it redirects to `blog:post_detail`; otherwise the form is processed
(in that branch `request.user` is exactly the post's author). -/
def postUpdateView (db : Database) (reqUser : Option Nat) (pk : Nat)
    (d : PostFormData) : Response × Database :=
  match db.posts.find? (fun p => p.id == pk) with
  | none => (.notFound, db)
  | some p =>
    if some p.author ≠ reqUser then (.redirect (.post_detail pk), db)
    else (.redirect (.post_detail pk),
          { db with
              posts := updatePost db.posts pk (fun q => applyPostForm q d p.author) })

/-- `PostDeleteView`: inherits `PostUpdateView.dispatch` (same
author check with redirect on mismatch), then `DeletionMixin` deletes
the object and redirects to `success_url = reverse_lazy('blog:index')`. -/
def postDeleteView (db : Database) (reqUser : Option Nat) (pk : Nat) :
    Response × Database :=
  match db.posts.find? (fun p => p.id == pk) with
  | none => (.notFound, db)
  | some p =>
    if some p.author ≠ reqUser then (.redirect (.post_detail pk), db)
    else (.redirect .index,
          { db with posts := db.posts.filter (fun q => q.id != pk) })

/-- `CommentUpdateView` (submit path): `dispatch` does
`get_object_or_404(Comment, pk=...)` and raises `PermissionDenied`
(HTTP 403) when `instance.author != request.user`; on success it
redirects to the comment's post detail page (`get_success_url`). -/
def commentUpdateView (db : Database) (reqUser : Option Nat) (pk : Nat)
    (newText : String) : Response × Database :=
  match db.comments.find? (fun c => c.id == pk) with
  | none => (.notFound, db)
  | some c =>
    if some c.author ≠ reqUser then (.forbidden, db)
    else (.redirect (.post_detail c.post),
          { db with
              comments := db.comments.map
                (fun k => if k.id == pk then { k with text := newText } else k) })

/-- `CommentDeleteView`: the same `dispatch` author check raising
`PermissionDenied`, then deletion and redirect to the post detail
page. -/
def commentDeleteView (db : Database) (reqUser : Option Nat) (pk : Nat) :
    Response × Database :=
  match db.comments.find? (fun c => c.id == pk) with
  | none => (.notFound, db)
  | some c =>
    if some c.author ≠ reqUser then (.forbidden, db)
    else (.redirect (.post_detail c.post),
          { db with comments := db.comments.filter (fun k => k.id != pk) })

/-- Username of the user with primary key `uid` (used by
`PostCreateView.get_success_url`, which builds the profile URL from
`self.object.author`). -/
def usernameOf (db : Database) (uid : Nat) : String :=
  match db.users.find? (fun u => u.id == uid) with
  | some u => u.username
  | none => ""

/-- `PostCreateView`: `LoginRequiredMixin` redirects anonymous
requesters to the login page before anything runs; for an authenticated
user a valid form creates a post with `author = request.user`
(`form_valid`) and redirects to the author's profile
(`get_success_url`). -/
def postCreateView (db : Database) (reqUser : Option Nat) (newId : Nat)
    (d : PostFormData) : Response × Database :=
  match reqUser with
  | none => (.redirect .login, db)
  | some uid =>
    (.redirect (.profilePage (usernameOf db uid)),
     { db with posts := db.posts ++
        [{ id := newId, title := d.title, text := d.text,
           pub_date := d.pub_date, is_published := d.is_published,
           author := uid, category := d.category, location := d.location }] })

/-- `profile` queryset: `Post.objects.annotate(...).filter(author=
profile).order_by('-pub_date')` — the author's posts with NO
visibility conditions. -/
def profileQueryset (db : Database) (u : User) : List Post :=
  orderByDateDesc (db.posts.filter (fun p => p.author == u.id))

/-- The rows rendered by `profile` for one page. -/
def profileRows (db : Database) (u : User) (page : Nat) : List (Post × Nat) :=
  annotateRows db (paginatePage (profileQueryset db u) POSTS_PER_PAGE page)

/-- The `profile` function view: `get_object_or_404(User,
username=slug)`, then the author's posts ordered by `-pub_date`,
annotated, paginated at `POSTS_PER_PAGE` and rendered.  The requesting
user is only read for the page number, never for filtering. -/
def profileView (db : Database) (_reqUser : Option Nat) (slug : String)
    (page : Nat) : Response :=
  match db.users.find? (fun u => u.username == slug) with
  | none => .notFound
  | some u => .page (profileRows db u page)

/-- Modelled from the spec: `blog/forms.py` is not among the provided
sources; `UserForm` edits profile fields of the framework User. -/
structure UserFormData where
  first_name : String
deriving Repr, DecidableEq

/-- `UserUpdateView` (submit path): `get_object` does
`get_object_or_404(User, username=slug)`; `dispatch` raises
`PermissionDenied` when `instance != request.user` (model instances
compare by primary key); on success it redirects to the user's
profile. -/
def userUpdateView (db : Database) (reqUser : Option Nat) (slug : String)
    (d : UserFormData) : Response × Database :=
  match db.users.find? (fun u => u.username == slug) with
  | none => (.notFound, db)
  | some u =>
    if some u.id ≠ reqUser then (.forbidden, db)
    else (.redirect (.profilePage u.username),
          { db with
              users := db.users.map
                (fun v =>
                  if v.id == u.id then { v with first_name := d.first_name }
                  else v) })

/-! ### Helper lemmas about sorting and pagination -/

/-- The descending publish-date order used by the listings. -/
def dateDesc (a b : Post) : Prop :=
  b.pub_date ≤ a.pub_date

theorem mem_insertByDateDesc {q p : Post} {l : List Post} :
    q ∈ insertByDateDesc p l ↔ q = p ∨ q ∈ l := by
  induction l with
  | nil => simp [insertByDateDesc]
  | cons r rs ih =>
    simp only [insertByDateDesc]
    split
    · simp only [List.mem_cons]
    · simp only [List.mem_cons, ih]
      tauto

theorem mem_orderByDateDesc {q : Post} {l : List Post} :
    q ∈ orderByDateDesc l ↔ q ∈ l := by
  induction l with
  | nil => simp [orderByDateDesc]
  | cons p ps ih =>
    simp only [orderByDateDesc, mem_insertByDateDesc, ih, List.mem_cons]

theorem sorted_insertByDateDesc {p : Post} {l : List Post}
    (h : List.Sorted dateDesc l) :
    List.Sorted dateDesc (insertByDateDesc p l) := by
  induction l with
  | nil => simp [insertByDateDesc, List.Sorted]
  | cons r rs ih =>
    rw [List.sorted_cons] at h
    obtain ⟨hr, hrs⟩ := h
    simp only [insertByDateDesc]
    split
    case isTrue hlt =>
      rw [List.sorted_cons]
      refine ⟨?_, ?_⟩
      · intro x hx
        rcases List.mem_cons.mp hx with rfl | hx
        · exact le_of_lt hlt
        · exact le_trans (hr x hx) (le_of_lt hlt)
      · rw [List.sorted_cons]
        exact ⟨hr, hrs⟩
    case isFalse hge =>
      rw [List.sorted_cons]
      refine ⟨?_, ih hrs⟩
      intro x hx
      rcases mem_insertByDateDesc.mp hx with rfl | hx
      · exact le_of_not_lt hge
      · exact hr x hx

theorem sorted_orderByDateDesc (l : List Post) :
    List.Sorted dateDesc (orderByDateDesc l) := by
  induction l with
  | nil => simp [orderByDateDesc, List.Sorted]
  | cons p ps ih => exact sorted_insertByDateDesc ih

theorem mem_paginatePage {x : α} {l : List α} {perPage page : Nat}
    (h : x ∈ paginatePage l perPage page) : x ∈ l := by
  unfold paginatePage at h
  exact (List.drop_sublist _ _).subset ((List.take_sublist _ _).subset h)

theorem length_paginatePage (l : List α) (perPage page : Nat) :
    (paginatePage l perPage page).length ≤ perPage := by
  unfold paginatePage
  simp [List.length_take]

theorem mem_annotateRows {db : Database} {rows : List Post} {p : Post} {cnt : Nat}
    (h : (p, cnt) ∈ annotateRows db rows) :
    p ∈ rows ∧ cnt = commentCount db p := by
  unfold annotateRows at h
  obtain ⟨q, hq, heq⟩ := List.mem_map.mp h
  obtain ⟨rfl, rfl⟩ := Prod.mk.injEq .. ▸ heq
  exact ⟨hq, rfl⟩

theorem visible_of_mem_postListQueryset {db : Database} {now : Int} {p : Post}
    (h : p ∈ postListQueryset db now) : postVisible db now p = true := by
  unfold postListQueryset at h
  exact (List.mem_filter.mp h).2

theorem visible_of_mem_categoryQueryset {db : Database} {now : Int}
    {slug : String} {p : Post} (h : p ∈ categoryQueryset db now slug) :
    postVisible db now p = true := by
  unfold categoryQueryset at h
  have hcond := (List.mem_filter.mp h).2
  rw [Bool.and_eq_true] at hcond
  exact hcond.1

theorem postUpdateView_author_of_changed {db : Database} {reqUser : Option Nat}
    {pk : Nat} {d : PostFormData}
    (h : (postUpdateView db reqUser pk d).2 ≠ db) :
    ∃ p, db.posts.find? (fun q => q.id == pk) = some p ∧
      reqUser = some p.author := by
  unfold postUpdateView at h
  split at h
  next heq => simp at h
  next p heq =>
    split at h
    next hne => simp at h
    next hne => exact ⟨p, heq, (not_ne_iff.mp hne).symm⟩

theorem postDeleteView_author_of_changed {db : Database} {reqUser : Option Nat}
    {pk : Nat} (h : (postDeleteView db reqUser pk).2 ≠ db) :
    ∃ p, db.posts.find? (fun q => q.id == pk) = some p ∧
      reqUser = some p.author := by
  unfold postDeleteView at h
  split at h
  next heq => simp at h
  next p heq =>
    split at h
    next hne => simp at h
    next hne => exact ⟨p, heq, (not_ne_iff.mp hne).symm⟩

theorem commentUpdateView_author_of_changed {db : Database} {reqUser : Option Nat}
    {pk : Nat} {t : String}
    (h : (commentUpdateView db reqUser pk t).2 ≠ db) :
    ∃ c, db.comments.find? (fun k => k.id == pk) = some c ∧
      reqUser = some c.author := by
  unfold commentUpdateView at h
  split at h
  next heq => simp at h
  next c heq =>
    split at h
    next hne => simp at h
    next hne => exact ⟨c, heq, (not_ne_iff.mp hne).symm⟩

theorem commentDeleteView_author_of_changed {db : Database} {reqUser : Option Nat}
    {pk : Nat} (h : (commentDeleteView db reqUser pk).2 ≠ db) :
    ∃ c, db.comments.find? (fun k => k.id == pk) = some c ∧
      reqUser = some c.author := by
  unfold commentDeleteView at h
  split at h
  next heq => simp at h
  next c heq =>
    split at h
    next hne => simp at h
    next hne => exact ⟨c, heq, (not_ne_iff.mp hne).symm⟩

/-! ### Claim theorems -/

/-- C1: a Post appears in the public listings (home index rows and
category listing rows) only if `is_published = true`, its Category is
published, and `pub_date ≤ now`; equivalently the listings exclude
every Post for which any of the three conditions fails. -/
theorem listings_show_only_visible_posts
    (db : Database) (now : Int) (slug : String) (page : Nat) (p : Post) (cnt : Nat)
    (h : (p, cnt) ∈ postListRows db now page ∨
         (p, cnt) ∈ categoryListRows db now slug page) :
    p.is_published = true ∧ categoryPublished db p = true ∧ p.pub_date ≤ now := by
  have hvis : postVisible db now p = true := by
    rcases h with h | h
    · unfold postListRows at h
      exact visible_of_mem_postListQueryset (mem_paginatePage (mem_annotateRows h).1)
    · unfold categoryListRows at h
      exact visible_of_mem_categoryQueryset (mem_paginatePage (mem_annotateRows h).1)
  unfold postVisible at hvis
  simp only [Bool.and_eq_true, decide_eq_true_eq] at hvis
  exact ⟨hvis.1.1, hvis.1.2, hvis.2⟩

theorem listings_show_only_visible_posts_witness :
    (((⟨1, "t", "x", 0, true, 1, 1, none⟩ : Post), 0) ∈
        postListRows ⟨[], [⟨1, "c", "C", true⟩],
          [⟨1, "t", "x", 0, true, 1, 1, none⟩], []⟩ 0 1 ∨
      ((⟨1, "t", "x", 0, true, 1, 1, none⟩ : Post), 0) ∈
        categoryListRows ⟨[], [⟨1, "c", "C", true⟩],
          [⟨1, "t", "x", 0, true, 1, 1, none⟩], []⟩ 0 "c" 1) ∧
    ((⟨1, "t", "x", 0, true, 1, 1, none⟩ : Post).is_published = true ∧
      categoryPublished ⟨[], [⟨1, "c", "C", true⟩],
        [⟨1, "t", "x", 0, true, 1, 1, none⟩], []⟩
        ⟨1, "t", "x", 0, true, 1, 1, none⟩ = true ∧
      (⟨1, "t", "x", 0, true, 1, 1, none⟩ : Post).pub_date ≤ 0) :=
  ⟨by decide,
   listings_show_only_visible_posts
     ⟨[], [⟨1, "c", "C", true⟩], [⟨1, "t", "x", 0, true, 1, 1, none⟩], []⟩
     0 "c" 1 ⟨1, "t", "x", 0, true, 1, 1, none⟩ 0 (by decide)⟩

/-- C2 fails as stated: the detail view does NOT apply the visibility
predicate.  Concretely, for a database with a single unpublished Post
(pk 1), the post fails the predicate yet its detail page returns it. -/
theorem detail_returns_invisible_post_cex :
    postVisible ⟨[], [⟨1, "c", "C", true⟩],
        [⟨1, "t", "x", 0, false, 1, 1, none⟩], []⟩ 0
        ⟨1, "t", "x", 0, false, 1, 1, none⟩ = false ∧
    postDetailView ⟨[], [⟨1, "c", "C", true⟩],
        [⟨1, "t", "x", 0, false, 1, 1, none⟩], []⟩ 1 =
      .detail ⟨1, "t", "x", 0, false, 1, 1, none⟩ :=
  ⟨rfl, rfl⟩

/-- C2 (amended): the visibility predicate is applied identically in the
two public listings (home and category), but the detail view applies no
visibility filter: for any stored Post with a given pk, the detail page
returns a stored post with that pk whether or not the predicate
holds. -/
theorem visibility_filters_listings_but_not_detail
    (db : Database) (now : Int) (slug : String) (page : Nat)
    (p : Post) (cnt : Nat) (pk : Nat) :
    ((p, cnt) ∈ postListRows db now page → postVisible db now p = true) ∧
    ((p, cnt) ∈ categoryListRows db now slug page → postVisible db now p = true) ∧
    (p ∈ db.posts → p.id = pk →
      ∃ q, q ∈ db.posts ∧ q.id = pk ∧ postDetailView db pk = .detail q) := by
  refine ⟨?_, ?_, ?_⟩
  · intro h
    unfold postListRows at h
    exact visible_of_mem_postListQueryset (mem_paginatePage (mem_annotateRows h).1)
  · intro h
    unfold categoryListRows at h
    exact visible_of_mem_categoryQueryset (mem_paginatePage (mem_annotateRows h).1)
  · intro hp hpk
    unfold postDetailView
    cases hfind : db.posts.find? (fun q => q.id == pk) with
    | none =>
      exfalso
      have := List.find?_eq_none.mp hfind p hp
      simp [hpk] at this
    | some q =>
      refine ⟨q, List.mem_of_find?_eq_some hfind, ?_, rfl⟩
      have := List.find?_some hfind
      simpa using this

theorem visibility_filters_listings_but_not_detail_witness :
    (((⟨1, "t", "x", 0, false, 1, 1, none⟩ : Post), 0) ∈
        postListRows ⟨[], [⟨1, "c", "C", true⟩],
          [⟨1, "t", "x", 0, false, 1, 1, none⟩], []⟩ 0 1 →
      postVisible ⟨[], [⟨1, "c", "C", true⟩],
          [⟨1, "t", "x", 0, false, 1, 1, none⟩], []⟩ 0
        ⟨1, "t", "x", 0, false, 1, 1, none⟩ = true) ∧
    (((⟨1, "t", "x", 0, false, 1, 1, none⟩ : Post), 0) ∈
        categoryListRows ⟨[], [⟨1, "c", "C", true⟩],
          [⟨1, "t", "x", 0, false, 1, 1, none⟩], []⟩ 0 "c" 1 →
      postVisible ⟨[], [⟨1, "c", "C", true⟩],
          [⟨1, "t", "x", 0, false, 1, 1, none⟩], []⟩ 0
        ⟨1, "t", "x", 0, false, 1, 1, none⟩ = true) ∧
    ((⟨1, "t", "x", 0, false, 1, 1, none⟩ : Post) ∈
        (⟨[], [⟨1, "c", "C", true⟩],
          [⟨1, "t", "x", 0, false, 1, 1, none⟩], []⟩ : Database).posts →
      (⟨1, "t", "x", 0, false, 1, 1, none⟩ : Post).id = 1 →
      ∃ q, q ∈ (⟨[], [⟨1, "c", "C", true⟩],
          [⟨1, "t", "x", 0, false, 1, 1, none⟩], []⟩ : Database).posts ∧
        q.id = 1 ∧
        postDetailView ⟨[], [⟨1, "c", "C", true⟩],
          [⟨1, "t", "x", 0, false, 1, 1, none⟩], []⟩ 1 = .detail q) :=
  visibility_filters_listings_but_not_detail
    ⟨[], [⟨1, "c", "C", true⟩], [⟨1, "t", "x", 0, false, 1, 1, none⟩], []⟩
    0 "c" 1 ⟨1, "t", "x", 0, false, 1, 1, none⟩ 0 1

/-- C3: a Post edit or delete request by any requester other than the
post's author is denied by a redirect to the post's detail page and
leaves the database unchanged; whenever either handler changes the
database, the requester was the authenticated author. -/
theorem post_mutations_require_author
    (db : Database) (reqUser : Option Nat) (pk : Nat) (d : PostFormData) (p : Post)
    (hfind : db.posts.find? (fun q => q.id == pk) = some p) :
    (some p.author ≠ reqUser →
      postUpdateView db reqUser pk d = (.redirect (.post_detail pk), db) ∧
      postDeleteView db reqUser pk = (.redirect (.post_detail pk), db)) ∧
    ((postUpdateView db reqUser pk d).2 ≠ db → reqUser = some p.author) ∧
    ((postDeleteView db reqUser pk).2 ≠ db → reqUser = some p.author) := by
  refine ⟨?_, ?_, ?_⟩
  · intro hne
    constructor
    · simp only [postUpdateView, hfind]
      rw [if_pos hne]
    · simp only [postDeleteView, hfind]
      rw [if_pos hne]
  · intro h
    obtain ⟨q, hq, hr⟩ := postUpdateView_author_of_changed h
    rw [hfind] at hq
    obtain rfl := Option.some.inj hq
    exact hr
  · intro h
    obtain ⟨q, hq, hr⟩ := postDeleteView_author_of_changed h
    rw [hfind] at hq
    obtain rfl := Option.some.inj hq
    exact hr

theorem post_mutations_require_author_witness :
    ((⟨[], [], [⟨1, "t", "x", 0, true, 1, 1, none⟩], []⟩ : Database).posts.find?
        (fun q => q.id == 1) = some ⟨1, "t", "x", 0, true, 1, 1, none⟩) ∧
    ((some (⟨1, "t", "x", 0, true, 1, 1, none⟩ : Post).author ≠ some 2 →
      postUpdateView ⟨[], [], [⟨1, "t", "x", 0, true, 1, 1, none⟩], []⟩ (some 2) 1
          ⟨"t2", "x2", 0, true, 1, none⟩ =
        (.redirect (.post_detail 1), ⟨[], [], [⟨1, "t", "x", 0, true, 1, 1, none⟩], []⟩) ∧
      postDeleteView ⟨[], [], [⟨1, "t", "x", 0, true, 1, 1, none⟩], []⟩ (some 2) 1 =
        (.redirect (.post_detail 1), ⟨[], [], [⟨1, "t", "x", 0, true, 1, 1, none⟩], []⟩)) ∧
    ((postUpdateView ⟨[], [], [⟨1, "t", "x", 0, true, 1, 1, none⟩], []⟩ (some 2) 1
          ⟨"t2", "x2", 0, true, 1, none⟩).2 ≠
        ⟨[], [], [⟨1, "t", "x", 0, true, 1, 1, none⟩], []⟩ →
      some 2 = some (⟨1, "t", "x", 0, true, 1, 1, none⟩ : Post).author) ∧
    ((postDeleteView ⟨[], [], [⟨1, "t", "x", 0, true, 1, 1, none⟩], []⟩ (some 2) 1).2 ≠
        ⟨[], [], [⟨1, "t", "x", 0, true, 1, 1, none⟩], []⟩ →
      some 2 = some (⟨1, "t", "x", 0, true, 1, 1, none⟩ : Post).author)) :=
  ⟨by decide,
   post_mutations_require_author
     ⟨[], [], [⟨1, "t", "x", 0, true, 1, 1, none⟩], []⟩ (some 2) 1
     ⟨"t2", "x2", 0, true, 1, none⟩ ⟨1, "t", "x", 0, true, 1, 1, none⟩ (by decide)⟩

/-- C4: an authenticated non-author asking to edit or delete a Comment
gets `PermissionDenied` (HTTP 403) and the database is unchanged;
whenever either comment handler changes the database, the requester was
the comment's author. -/
theorem comment_mutations_require_author
    (db : Database) (uid : Nat) (reqUser : Option Nat) (pk : Nat) (t : String)
    (c : Comment)
    (hfind : db.comments.find? (fun k => k.id == pk) = some c) :
    (reqUser = some uid → c.author ≠ uid →
      commentUpdateView db reqUser pk t = (.forbidden, db) ∧
      commentDeleteView db reqUser pk = (.forbidden, db)) ∧
    ((commentUpdateView db reqUser pk t).2 ≠ db → reqUser = some c.author) ∧
    ((commentDeleteView db reqUser pk).2 ≠ db → reqUser = some c.author) := by
  refine ⟨?_, ?_, ?_⟩
  · intro hru hne
    subst hru
    have hcond : some c.author ≠ some uid := by simpa using hne
    constructor
    · simp only [commentUpdateView, hfind]
      rw [if_pos hcond]
    · simp only [commentDeleteView, hfind]
      rw [if_pos hcond]
  · intro h
    obtain ⟨k, hk, hr⟩ := commentUpdateView_author_of_changed h
    rw [hfind] at hk
    obtain rfl := Option.some.inj hk
    exact hr
  · intro h
    obtain ⟨k, hk, hr⟩ := commentDeleteView_author_of_changed h
    rw [hfind] at hk
    obtain rfl := Option.some.inj hk
    exact hr

theorem comment_mutations_require_author_witness :
    ((⟨[], [], [], [⟨1, "hi", 1, 1⟩]⟩ : Database).comments.find?
        (fun k => k.id == 1) = some ⟨1, "hi", 1, 1⟩) ∧
    ((some 2 = some 2 → (⟨1, "hi", 1, 1⟩ : Comment).author ≠ 2 →
      commentUpdateView ⟨[], [], [], [⟨1, "hi", 1, 1⟩]⟩ (some 2) 1 "yo" =
        (.forbidden, ⟨[], [], [], [⟨1, "hi", 1, 1⟩]⟩) ∧
      commentDeleteView ⟨[], [], [], [⟨1, "hi", 1, 1⟩]⟩ (some 2) 1 =
        (.forbidden, ⟨[], [], [], [⟨1, "hi", 1, 1⟩]⟩)) ∧
    ((commentUpdateView ⟨[], [], [], [⟨1, "hi", 1, 1⟩]⟩ (some 2) 1 "yo").2 ≠
        ⟨[], [], [], [⟨1, "hi", 1, 1⟩]⟩ →
      some 2 = some (⟨1, "hi", 1, 1⟩ : Comment).author) ∧
    ((commentDeleteView ⟨[], [], [], [⟨1, "hi", 1, 1⟩]⟩ (some 2) 1).2 ≠
        ⟨[], [], [], [⟨1, "hi", 1, 1⟩]⟩ →
      some 2 = some (⟨1, "hi", 1, 1⟩ : Comment).author)) :=
  ⟨by decide,
   comment_mutations_require_author
     ⟨[], [], [], [⟨1, "hi", 1, 1⟩]⟩ 2 (some 2) 1 "yo" ⟨1, "hi", 1, 1⟩ (by decide)⟩

/-- C5 fails as stated: an unauthorized Post edit does not raise a
permission-denied (403) condition — `PostUpdateView.dispatch` answers
with a redirect to the post's detail page instead.  Concretely, a post
authored by user 1 edited by user 2 yields a redirect, not 403. -/
theorem post_edit_denial_is_redirect_cex :
    (postUpdateView ⟨[], [], [⟨1, "t", "x", 0, true, 1, 1, none⟩], []⟩ (some 2) 1
        ⟨"t2", "x2", 0, true, 1, none⟩).1 = .redirect (.post_detail 1) ∧
    (postUpdateView ⟨[], [], [⟨1, "t", "x", 0, true, 1, 1, none⟩], []⟩ (some 2) 1
        ⟨"t2", "x2", 0, true, 1, none⟩).1 ≠ .forbidden :=
  ⟨rfl, by decide⟩

/-- C5 (amended): unauthorized Comment edit/delete raise a
permission-denied condition (HTTP 403); unauthorized Post edit/delete
are denied by a redirect to the post's detail page, not by a 403; in
all four handlers the denied request leaves the database unchanged. -/
theorem unauthorized_mutations_denied
    (db : Database) (reqUser : Option Nat) (pkP pkC : Nat) (d : PostFormData)
    (t : String) (p : Post) (c : Comment)
    (hp : db.posts.find? (fun q => q.id == pkP) = some p)
    (hc : db.comments.find? (fun k => k.id == pkC) = some c)
    (hnp : some p.author ≠ reqUser) (hnc : some c.author ≠ reqUser) :
    postUpdateView db reqUser pkP d = (.redirect (.post_detail pkP), db) ∧
    postDeleteView db reqUser pkP = (.redirect (.post_detail pkP), db) ∧
    commentUpdateView db reqUser pkC t = (.forbidden, db) ∧
    commentDeleteView db reqUser pkC = (.forbidden, db) := by
  refine ⟨?_, ?_, ?_, ?_⟩
  · simp only [postUpdateView, hp]
    rw [if_pos hnp]
  · simp only [postDeleteView, hp]
    rw [if_pos hnp]
  · simp only [commentUpdateView, hc]
    rw [if_pos hnc]
  · simp only [commentDeleteView, hc]
    rw [if_pos hnc]

theorem unauthorized_mutations_denied_witness :
    ((⟨[], [], [⟨1, "t", "x", 0, true, 1, 1, none⟩], [⟨1, "hi", 1, 1⟩]⟩ :
        Database).posts.find? (fun q => q.id == 1) =
        some ⟨1, "t", "x", 0, true, 1, 1, none⟩) ∧
    ((⟨[], [], [⟨1, "t", "x", 0, true, 1, 1, none⟩], [⟨1, "hi", 1, 1⟩]⟩ :
        Database).comments.find? (fun k => k.id == 1) = some ⟨1, "hi", 1, 1⟩) ∧
    (some (⟨1, "t", "x", 0, true, 1, 1, none⟩ : Post).author ≠ some 2) ∧
    (some (⟨1, "hi", 1, 1⟩ : Comment).author ≠ some 2) ∧
    (postUpdateView ⟨[], [], [⟨1, "t", "x", 0, true, 1, 1, none⟩], [⟨1, "hi", 1, 1⟩]⟩
        (some 2) 1 ⟨"t2", "x2", 0, true, 1, none⟩ =
      (.redirect (.post_detail 1),
        ⟨[], [], [⟨1, "t", "x", 0, true, 1, 1, none⟩], [⟨1, "hi", 1, 1⟩]⟩) ∧
    postDeleteView ⟨[], [], [⟨1, "t", "x", 0, true, 1, 1, none⟩], [⟨1, "hi", 1, 1⟩]⟩
        (some 2) 1 =
      (.redirect (.post_detail 1),
        ⟨[], [], [⟨1, "t", "x", 0, true, 1, 1, none⟩], [⟨1, "hi", 1, 1⟩]⟩) ∧
    commentUpdateView ⟨[], [], [⟨1, "t", "x", 0, true, 1, 1, none⟩], [⟨1, "hi", 1, 1⟩]⟩
        (some 2) 1 "yo" =
      (.forbidden,
        ⟨[], [], [⟨1, "t", "x", 0, true, 1, 1, none⟩], [⟨1, "hi", 1, 1⟩]⟩) ∧
    commentDeleteView ⟨[], [], [⟨1, "t", "x", 0, true, 1, 1, none⟩], [⟨1, "hi", 1, 1⟩]⟩
        (some 2) 1 =
      (.forbidden,
        ⟨[], [], [⟨1, "t", "x", 0, true, 1, 1, none⟩], [⟨1, "hi", 1, 1⟩]⟩)) :=
  ⟨by decide, by decide, by decide, by decide,
   unauthorized_mutations_denied
     ⟨[], [], [⟨1, "t", "x", 0, true, 1, 1, none⟩], [⟨1, "hi", 1, 1⟩]⟩
     (some 2) 1 1 ⟨"t2", "x2", 0, true, 1, none⟩ "yo"
     ⟨1, "t", "x", 0, true, 1, 1, none⟩ ⟨1, "hi", 1, 1⟩
     (by decide) (by decide) (by decide) (by decide)⟩

/-- C7: every page of each paginated listing (home index, category
listing, profile listing) holds at most `POSTS_PER_PAGE` rows. -/
theorem listing_pages_within_page_size
    (db : Database) (now : Int) (slug : String) (u : User) (page : Nat) :
    (postListRows db now page).length ≤ POSTS_PER_PAGE ∧
    (categoryListRows db now slug page).length ≤ POSTS_PER_PAGE ∧
    (profileRows db u page).length ≤ POSTS_PER_PAGE := by
  refine ⟨?_, ?_, ?_⟩ <;>
    simp only [postListRows, categoryListRows, profileRows, annotateRows,
      List.length_map] <;>
    exact length_paginatePage _ _ _

/-- C6: the profile listing for a username, for every requester,
renders the target user's posts with no visibility filtering
(membership in the queryset is exactly authorship), ordered by
`pub_date` descending, annotated with comment counts, and paginated at
`POSTS_PER_PAGE`. -/
theorem profile_lists_all_author_posts
    (db : Database) (reqUser : Option Nat) (slug : String) (page : Nat)
    (u : User) (p : Post) (cnt : Nat)
    (hu : db.users.find? (fun v => v.username == slug) = some u) :
    profileView db reqUser slug page = .page (profileRows db u page) ∧
    (p ∈ profileQueryset db u ↔ p ∈ db.posts ∧ p.author = u.id) ∧
    List.Sorted dateDesc (profileQueryset db u) ∧
    ((p, cnt) ∈ profileRows db u page →
      p ∈ db.posts ∧ p.author = u.id ∧ cnt = commentCount db p) ∧
    (profileRows db u page).length ≤ POSTS_PER_PAGE := by
  refine ⟨?_, ?_, ?_, ?_, ?_⟩
  · simp only [profileView, hu]
  · unfold profileQueryset
    rw [mem_orderByDateDesc, List.mem_filter]
    simp
  · exact sorted_orderByDateDesc _
  · intro h
    unfold profileRows at h
    obtain ⟨hmem, hcnt⟩ := mem_annotateRows h
    have hq := mem_paginatePage hmem
    unfold profileQueryset at hq
    rw [mem_orderByDateDesc, List.mem_filter] at hq
    exact ⟨hq.1, by simpa using hq.2, hcnt⟩
  · simp only [profileRows, annotateRows, List.length_map]
    exact length_paginatePage _ _ _

theorem profile_lists_all_author_posts_witness :
    ((⟨[⟨1, "u", "n"⟩], [], [⟨1, "t", "x", 0, false, 1, 1, none⟩], []⟩ :
        Database).users.find? (fun v => v.username == "u") = some ⟨1, "u", "n"⟩) ∧
    (profileView ⟨[⟨1, "u", "n"⟩], [], [⟨1, "t", "x", 0, false, 1, 1, none⟩], []⟩
        none "u" 1 =
      .page (profileRows
        ⟨[⟨1, "u", "n"⟩], [], [⟨1, "t", "x", 0, false, 1, 1, none⟩], []⟩
        ⟨1, "u", "n"⟩ 1) ∧
    ((⟨1, "t", "x", 0, false, 1, 1, none⟩ : Post) ∈
        profileQueryset
          ⟨[⟨1, "u", "n"⟩], [], [⟨1, "t", "x", 0, false, 1, 1, none⟩], []⟩
          ⟨1, "u", "n"⟩ ↔
      (⟨1, "t", "x", 0, false, 1, 1, none⟩ : Post) ∈
        (⟨[⟨1, "u", "n"⟩], [], [⟨1, "t", "x", 0, false, 1, 1, none⟩], []⟩ :
          Database).posts ∧
      (⟨1, "t", "x", 0, false, 1, 1, none⟩ : Post).author =
        (⟨1, "u", "n"⟩ : User).id) ∧
    List.Sorted dateDesc
      (profileQueryset
        ⟨[⟨1, "u", "n"⟩], [], [⟨1, "t", "x", 0, false, 1, 1, none⟩], []⟩
        ⟨1, "u", "n"⟩) ∧
    (((⟨1, "t", "x", 0, false, 1, 1, none⟩ : Post), 0) ∈
        profileRows
          ⟨[⟨1, "u", "n"⟩], [], [⟨1, "t", "x", 0, false, 1, 1, none⟩], []⟩
          ⟨1, "u", "n"⟩ 1 →
      (⟨1, "t", "x", 0, false, 1, 1, none⟩ : Post) ∈
        (⟨[⟨1, "u", "n"⟩], [], [⟨1, "t", "x", 0, false, 1, 1, none⟩], []⟩ :
          Database).posts ∧
      (⟨1, "t", "x", 0, false, 1, 1, none⟩ : Post).author =
        (⟨1, "u", "n"⟩ : User).id ∧
      0 = commentCount
        ⟨[⟨1, "u", "n"⟩], [], [⟨1, "t", "x", 0, false, 1, 1, none⟩], []⟩
        ⟨1, "t", "x", 0, false, 1, 1, none⟩) ∧
    (profileRows ⟨[⟨1, "u", "n"⟩], [], [⟨1, "t", "x", 0, false, 1, 1, none⟩], []⟩
        ⟨1, "u", "n"⟩ 1).length ≤ POSTS_PER_PAGE) :=
  ⟨by decide,
   profile_lists_all_author_posts
     ⟨[⟨1, "u", "n"⟩], [], [⟨1, "t", "x", 0, false, 1, 1, none⟩], []⟩
     none "u" 1 ⟨1, "u", "n"⟩ ⟨1, "t", "x", 0, false, 1, 1, none⟩ 0 (by decide)⟩

/-- C9: the category listing answers 404 whenever every stored Category
with the requested slug is unpublished — in particular when no such
Category exists at all — even though the post queryset for that slug
would merely be empty. -/
theorem unpublished_category_listing_is_404
    (db : Database) (now : Int) (slug : String) (page : Nat)
    (h : ∀ c ∈ db.categories, c.slug = slug → c.is_published = false) :
    categoryListView db now slug page = .notFound ∧
    categoryQueryset db now slug = [] := by
  have hf : db.categories.find? (fun c => c.slug == slug && c.is_published) =
      none := by
    rw [List.find?_eq_none]
    intro c hc
    simp only [Bool.and_eq_true, beq_iff_eq, not_and]
    intro hs
    rw [h c hc hs]
    simp
  constructor
  · simp only [categoryListView, hf]
  · unfold categoryQueryset
    rw [List.filter_eq_nil_iff]
    intro p hp
    intro hcond
    rw [Bool.and_eq_true, Bool.and_eq_true, Bool.and_eq_true] at hcond
    obtain ⟨⟨⟨hpub, hcat⟩, hdate⟩, hslug⟩ := hcond
    cases hco : categoryOf db p with
    | none =>
      unfold categoryPublished at hcat
      simp only [hco] at hcat
      exact Bool.false_ne_true hcat
    | some c =>
      unfold categoryPublished at hcat
      unfold categorySlugIs at hslug
      simp only [hco] at hcat hslug
      have hcm : c ∈ db.categories := by
        unfold categoryOf at hco
        exact List.mem_of_find?_eq_some hco
      have hcs : c.slug = slug := by simpa using hslug
      have hfalse := h c hcm hcs
      rw [hfalse] at hcat
      simp at hcat

theorem unpublished_category_listing_is_404_witness :
    (∀ c ∈ (⟨[], [⟨1, "c", "C", false⟩],
        [⟨1, "t", "x", 0, true, 1, 1, none⟩], []⟩ : Database).categories,
      c.slug = "c" → c.is_published = false) ∧
    (categoryListView ⟨[], [⟨1, "c", "C", false⟩],
        [⟨1, "t", "x", 0, true, 1, 1, none⟩], []⟩ 0 "c" 1 = .notFound ∧
     categoryQueryset ⟨[], [⟨1, "c", "C", false⟩],
        [⟨1, "t", "x", 0, true, 1, 1, none⟩], []⟩ 0 "c" = []) :=
  ⟨by decide,
   unpublished_category_listing_is_404
     ⟨[], [⟨1, "c", "C", false⟩], [⟨1, "t", "x", 0, true, 1, 1, none⟩], []⟩
     0 "c" 1 (by decide)⟩

/-- C10: the profile-edit handler proceeds only when the target user is
the requester: any other requester gets `PermissionDenied` (403) and
the database is unchanged; whenever it changes the database the
requester was the target user. -/
theorem profile_edit_requires_owner
    (db : Database) (reqUser : Option Nat) (slug : String) (d : UserFormData)
    (u : User)
    (hu : db.users.find? (fun v => v.username == slug) = some u) :
    (some u.id ≠ reqUser → userUpdateView db reqUser slug d = (.forbidden, db)) ∧
    ((userUpdateView db reqUser slug d).2 ≠ db → reqUser = some u.id) := by
  constructor
  · intro hne
    simp only [userUpdateView, hu]
    rw [if_pos hne]
  · intro h
    unfold userUpdateView at h
    split at h
    next heq => simp at h
    next v heq =>
      split at h
      next => simp at h
      next hne =>
        rw [hu] at heq
        obtain rfl := Option.some.inj heq
        exact (not_ne_iff.mp hne).symm

theorem profile_edit_requires_owner_witness :
    ((⟨[⟨1, "u", "n"⟩], [], [], []⟩ : Database).users.find?
        (fun v => v.username == "u") = some ⟨1, "u", "n"⟩) ∧
    ((some (⟨1, "u", "n"⟩ : User).id ≠ some 2 →
      userUpdateView ⟨[⟨1, "u", "n"⟩], [], [], []⟩ (some 2) "u" ⟨"m"⟩ =
        (.forbidden, ⟨[⟨1, "u", "n"⟩], [], [], []⟩)) ∧
    ((userUpdateView ⟨[⟨1, "u", "n"⟩], [], [], []⟩ (some 2) "u" ⟨"m"⟩).2 ≠
        ⟨[⟨1, "u", "n"⟩], [], [], []⟩ →
      some 2 = some (⟨1, "u", "n"⟩ : User).id)) :=
  ⟨by decide,
   profile_edit_requires_owner ⟨[⟨1, "u", "n"⟩], [], [], []⟩ (some 2) "u" ⟨"m"⟩
     ⟨1, "u", "n"⟩ (by decide)⟩

/-- C8: an unauthenticated Post-create request is redirected to the
login page and the database is unchanged (no Post is created). -/
theorem anonymous_post_create_redirects_to_login
    (db : Database) (newId : Nat) (d : PostFormData) :
    postCreateView db none newId d = (.redirect .login, db) :=
  rfl

end Blogicum
